import Mathlib

/-!
Shallow embedding of the MAME driver slice consisting of
`src/mame/audio/decobsmt.cpp` and `src/mame/drivers/djboy.cpp`.

Machine integers are modelled as `Nat` with explicit bitwise operations;
8-bit registers hold values below 256 where that matters.  Handlers that
invoke an attached device a variable number of times additionally return
the number of such invocations, so that "exactly once" properties can be
stated.  Framework devices whose source is not part of this repository
slice (the generic 8-bit latch and the memory-bank unit) are modelled
from the specification text and are marked as such in their doc comments.
-/

/-- State of an emulated interrupt/reset line: `assertLine` models
ASSERT_LINE, `clearLine` models CLEAR_LINE. -/
inductive LineState
  | assertLine
  | clearLine
deriving DecidableEq

/-- Register file of `decobsmt_device` (decobsmt.cpp): the BSMT data
latch, the reset-control register and the comms register. -/
structure DecobsmtState where
  bsmt_latch : Nat
  bsmt_reset : Nat
  bsmt_comms : Nat
deriving DecidableEq

/-- `decobsmt_device::device_reset` (decobsmt.cpp lines 91-96): clears
all three registers. -/
def DecobsmtState.device_reset (s : DecobsmtState) : DecobsmtState :=
  { s with bsmt_latch := 0, bsmt_reset := 0, bsmt_comms := 0 }

/-- `decobsmt_device::bsmt_reset_w` (decobsmt.cpp lines 98-104):
computes `diff = data ^ m_bsmt_reset`, stores `data` into `m_bsmt_reset`,
and calls `m_bsmt->reset()` when `(diff & 0x80)` is nonzero and
`(data & 0x80)` is zero.  The second component counts the calls to
`m_bsmt->reset()` made by this invocation. -/
def bsmt_reset_w (s : DecobsmtState) (data : Nat) : DecobsmtState × Nat :=
  let diff := data ^^^ s.bsmt_reset
  ({ s with bsmt_reset := data },
    if diff &&& 0x80 ≠ 0 ∧ data &&& 0x80 = 0 then 1 else 0)

/-- Modelled from the spec: the generic 8-bit latch device
(`generic_latch_8_device`, whose source is not in this repository
slice).  "write(value) stores value, sets pending"; "read() returns
stored value; if configured for separate acknowledge, pending is NOT
cleared by read — a distinct acknowledge() call clears it";
"pending() returns current pending flag without side effects". -/
structure Latch where
  value : Nat
  pending : Bool
  separateAck : Bool
deriving DecidableEq

/-- Modelled from the spec: latch `write(v)` stores `v` and sets the
pending flag. -/
def Latch.write (l : Latch) (v : Nat) : Latch :=
  { l with value := v, pending := true }

/-- Modelled from the spec: latch `read()` returns the stored value;
in separate-acknowledge mode pending is left set, otherwise read
clears it. -/
def Latch.read (l : Latch) : Nat × Latch :=
  (l.value, if l.separateAck then l else { l with pending := false })

/-- Modelled from the spec: the distinct `acknowledge()` operation
clears the pending flag. -/
def Latch.acknowledge (l : Latch) : Latch :=
  { l with pending := false }

/-- Modelled from the spec: `pending()` returns the current pending
flag. -/
def Latch.pending_r (l : Latch) : Bool :=
  l.pending

/-- Modelled from the spec: the memory-bank unit (`memory_bank`, whose
source is not in this repository slice).  `entryBase i` is the offset
into the backing region configured for entry `i` (`none` when entry `i`
has not been configured); `current` is the selected entry. -/
structure MemoryBank where
  entryBase : Nat → Option Nat
  current : Nat

/-- A bank with no configured entries. -/
def MemoryBank.empty : MemoryBank :=
  ⟨fun _ => none, 0⟩

/-- Modelled from the spec: `configure_entries(first, count, base,
stride)` configures entries `first .. first+count-1`, entry `first + i`
mapping to offset `base + i * stride` of the backing region. -/
def MemoryBank.configure_entries (b : MemoryBank)
    (first count base stride : Nat) : MemoryBank :=
  { b with entryBase := fun i =>
      if first ≤ i ∧ i < first + count then some (base + (i - first) * stride)
      else b.entryBase i }

/-- Modelled from the spec: `select(index)`/`set_entry` makes `index`
the active entry when it is configured; an out-of-range index is
rejected (`none`), never silently masked by the bank unit itself. -/
def MemoryBank.set_entry (b : MemoryBank) (i : Nat) : Option MemoryBank :=
  match b.entryBase i with
  | some _ => some { b with current := i }
  | none => none

/-- Modelled from the spec: a read through the mapped window at offset
`off` returns `backing[entryBase(current) + off]`. -/
def MemoryBank.readWindow (b : MemoryBank) (backing : Nat → Nat)
    (off : Nat) : Option Nat :=
  (b.entryBase b.current).map fun base => backing (base + off)

/-- Driver state of `djboy_state` (djboy.cpp): the Kaneko BEAST port
registers, the video register, the per-set bank XOR, the four memory
banks, the three latches, and the slave CPU's reset line. -/
structure DjboyState where
  beast_p0 : Nat
  beast_p1 : Nat
  beast_p2 : Nat
  beast_p3 : Nat
  videoreg : Nat
  bankxor : Nat
  masterbank : MemoryBank
  masterbank_l : MemoryBank
  slavebank : MemoryBank
  soundbank : MemoryBank
  slavelatch : Latch
  beastlatch : Latch
  soundlatch : Latch
  slavecpu_reset : LineState

/-- Bank configuration performed by `djboy_state::machine_start`
(djboy.cpp lines 452-462): master bank 32 entries of 0x2000 from the
start of the mastercpu region; slave bank entries 0-3 of 0x4000 from
SLAVE[0] and entries 8-15 of 0x4000 from SLAVE[0x10000]; sound bank 8
entries of 0x4000; master_bank_l a single entry at MASTER[0x8000]. -/
def machine_start (s : DjboyState) : DjboyState :=
  { s with
    masterbank := MemoryBank.empty.configure_entries 0 32 0 0x2000
    slavebank := (MemoryBank.empty.configure_entries 0 4 0 0x4000).configure_entries
      8 8 0x10000 0x4000
    soundbank := MemoryBank.empty.configure_entries 0 8 0 0x4000
    masterbank_l := MemoryBank.empty.configure_entries 0 1 0x8000 0 }

/-- Latch wiring from `MACHINE_CONFIG_START(djboy_state::djboy)`
(djboy.cpp lines 511-515, 534-535): the beast latch is configured with
separate acknowledge; the slave and sound latches are not. -/
def machine_config (s : DjboyState) : DjboyState :=
  { s with
    slavelatch := ⟨0, false, false⟩
    beastlatch := ⟨0, false, true⟩
    soundlatch := ⟨0, false, false⟩ }

/-- `DRIVER_INIT_MEMBER(djboy_state, djboy)` (djboy.cpp lines 642-645),
used by the djboy and djboya sets: `m_bankxor = 0x00`. -/
def init_djboy (s : DjboyState) : DjboyState :=
  { s with bankxor := 0x00 }

/-- `DRIVER_INIT_MEMBER(djboy_state, djboyj)` (djboy.cpp lines
647-650), used by the djboyj set: `m_bankxor = 0x1f`. -/
def init_djboyj (s : DjboyState) : DjboyState :=
  { s with bankxor := 0x1f }

/-- The MAME `BIT(x, n)` macro: `(x >> n) & 1`. -/
def BIT (x n : Nat) : Nat :=
  (x >>> n) &&& 1

/-- `djboy_state::mastercpu_bankswitch_w` (djboy.cpp lines 166-171):
`data ^= m_bankxor`, then selects master bank entry `data` and entry 0
of master_bank_l. -/
def mastercpu_bankswitch_w (s : DjboyState) (data : Nat) :
    Option DjboyState :=
  let d := data ^^^ s.bankxor
  match s.masterbank.set_entry d with
  | none => none
  | some mb =>
    match s.masterbank_l.set_entry 0 with
    | none => none
    | some mbl => some { s with masterbank := mb, masterbank_l := mbl }

/-- `djboy_state::slavecpu_bankswitch_w` (djboy.cpp lines 181-187):
stores `data` in `m_videoreg`; when `(data & 0xc) != 4`, selects slave
bank entry `data & 0xf`. -/
def slavecpu_bankswitch_w (s : DjboyState) (data : Nat) :
    Option DjboyState :=
  let s1 := { s with videoreg := data }
  if data &&& 0xc ≠ 4 then
    match s1.slavebank.set_entry (data &&& 0xf) with
    | none => none
    | some sb => some { s1 with slavebank := sb }
  else some s1

/-- `djboy_state::soundcpu_bankswitch_w` (djboy.cpp lines 197-200):
selects sound bank entry `data` with no range check ("shall we check
data<0x07?"). -/
def soundcpu_bankswitch_w (s : DjboyState) (data : Nat) :
    Option DjboyState :=
  match s.soundbank.set_entry data with
  | none => none
  | some sb => some { s with soundbank := sb }

/-- The master CPU program map entry `map(0xc000, 0xdfff)
.bankr("master_bank")` (djboy.cpp line 209): a read at an address in
that range goes through the master bank window at offset
`addr - 0xc000`. -/
def mastercpu_read_banked (s : DjboyState) (MASTER : Nat → Nat)
    (addr : Nat) : Option Nat :=
  if 0xc000 ≤ addr ∧ addr ≤ 0xdfff then
    s.masterbank.readWindow MASTER (addr - 0xc000)
  else none

/-- `djboy_state::beast_status_r` (djboy.cpp lines 154-157): returns
`(slavelatch pending ? 0x0 : 0x4) | (beastlatch pending ? 0x8 : 0x0)`;
the state is returned unchanged. -/
def beast_status_r (s : DjboyState) : Nat × DjboyState :=
  ((if s.slavelatch.pending_r then 0x0 else 0x4) |||
    (if s.beastlatch.pending_r then 0x8 else 0x0), s)

/-- The slave CPU port 4 write `map(0x04, 0x04)...w(m_beastlatch,
FUNC(generic_latch_8_device::write))` (djboy.cpp line 238): writes
`data` into the beast latch. -/
def slave_port4_w (s : DjboyState) (data : Nat) : DjboyState :=
  { s with beastlatch := s.beastlatch.write data }

/-- The slave CPU port 4 read `map(0x04, 0x04).r(m_slavelatch,
FUNC(generic_latch_8_device::read))` (djboy.cpp line 238): reads the
slave latch. -/
def slave_port4_r (s : DjboyState) : Nat × DjboyState :=
  let p := s.slavelatch.read
  (p.1, { s with slavelatch := p.2 })

/-- `djboy_state::beast_p0_r` (djboy.cpp lines 267-271): always
returns 0. -/
def beast_p0_r (s : DjboyState) : Nat × DjboyState :=
  (0, s)

/-- `djboy_state::beast_p0_w` (djboy.cpp lines 273-284): on a rising
edge of bit 1 (`!BIT(m_beast_p0, 1) && BIT(data, 1)`) writes
`m_beast_p1` into the slave latch; when `BIT(data, 0) == 0`
acknowledges the beast latch; finally stores `data` in `m_beast_p0`.
The second component counts the slave-latch write calls made by this
invocation. -/
def beast_p0_w (s : DjboyState) (data : Nat) : DjboyState × Nat :=
  let p :=
    if s.beast_p0.testBit 1 = false ∧ data.testBit 1 = true then
      ({ s with slavelatch := s.slavelatch.write s.beast_p1 }, 1)
    else (s, 0)
  let s2 :=
    if data.testBit 0 = false then
      { p.1 with beastlatch := p.1.beastlatch.acknowledge }
    else p.1
  ({ s2 with beast_p0 := data }, p.2)

/-- `djboy_state::beast_p1_r` (djboy.cpp lines 286-292): when
`BIT(m_beast_p0, 0) == 0` reads the beast latch, otherwise returns 0. -/
def beast_p1_r (s : DjboyState) : Nat × DjboyState :=
  if s.beast_p0.testBit 0 = false then
    let p := s.beastlatch.read
    (p.1, { s with beastlatch := p.2 })
  else (0, s)

/-- `djboy_state::beast_p1_w` (djboy.cpp lines 294-297): stores `data`
in `m_beast_p1`. -/
def beast_p1_w (s : DjboyState) (data : Nat) : DjboyState :=
  { s with beast_p1 := data }

/-- `djboy_state::beast_p2_r` (djboy.cpp lines 299-308): switches on
`(m_beast_p0 >> 2) & 3`, returning IN1, IN2, IN0 for selectors
0, 1, 2 and 0xff otherwise. -/
def beast_p2_r (s : DjboyState) (in0 in1 in2 : Nat) : Nat × DjboyState :=
  (match (s.beast_p0 >>> 2) &&& 3 with
    | 0 => in1
    | 1 => in2
    | 2 => in0
    | _ => 0xff, s)

/-- `djboy_state::beast_p2_w` (djboy.cpp lines 310-313): stores `data`
in `m_beast_p2`. -/
def beast_p2_w (s : DjboyState) (data : Nat) : DjboyState :=
  { s with beast_p2 := data }

/-- `djboy_state::beast_p3_r` (djboy.cpp lines 315-329): assembles a
DIP-switch nibble selected by `(m_beast_p0 >> 5) & 3` from the 8-bit
complements of the two DSW ports, and reports the latch pending flags
in the low bits; the state is returned unchanged. -/
def beast_p3_r (s : DjboyState) (dsw1_in dsw2_in : Nat) :
    Nat × DjboyState :=
  let dsw1 := (dsw1_in &&& 0xff) ^^^ 0xff
  let dsw2 := (dsw2_in &&& 0xff) ^^^ 0xff
  let dsw :=
    match (s.beast_p0 >>> 5) &&& 3 with
    | 0 => (BIT dsw2 4 <<< 3) ||| (BIT dsw2 0 <<< 2) ||| (BIT dsw1 4 <<< 1) ||| BIT dsw1 0
    | 1 => (BIT dsw2 5 <<< 3) ||| (BIT dsw2 1 <<< 2) ||| (BIT dsw1 5 <<< 1) ||| BIT dsw1 1
    | 2 => (BIT dsw2 6 <<< 3) ||| (BIT dsw2 2 <<< 2) ||| (BIT dsw1 6 <<< 1) ||| BIT dsw1 2
    | _ => (BIT dsw2 7 <<< 3) ||| (BIT dsw2 3 <<< 2) ||| (BIT dsw1 7 <<< 1) ||| BIT dsw1 3
  ((dsw <<< 4) ||| (if s.beastlatch.pending_r then 0x0 else 0x4) |||
    (if s.slavelatch.pending_r then 0x8 else 0x0), s)

/-- `djboy_state::beast_p3_w` (djboy.cpp lines 331-335): stores `data`
in `m_beast_p3` and drives the slave CPU reset line: CLEAR_LINE when
`data & 2` is nonzero, ASSERT_LINE otherwise. -/
def beast_p3_w (s : DjboyState) (data : Nat) : DjboyState :=
  { s with
    beast_p3 := data
    slavecpu_reset :=
      if data &&& 2 ≠ 0 then LineState.clearLine else LineState.assertLine }

/-- The decobsmt board together with the reset line of its M6809 sound
CPU. -/
structure DecobsmtMachine where
  regs : DecobsmtState
  soundcpu_reset : LineState

/-- `decobsmt_device::bsmt_reset_line` (decobsmt.cpp lines 133-136):
`m_ourcpu->set_input_line(INPUT_LINE_RESET, state)` — the sound CPU
reset line is set to the passed line state. -/
def bsmt_reset_line (m : DecobsmtMachine) (st : LineState) :
    DecobsmtMachine :=
  { m with soundcpu_reset := st }

/-- The `save_item` registrations made by `djboy_state::machine_start`
(djboy.cpp lines 464-472), as a list of registered field names. -/
def djboy_save_items : List String :=
  ["m_videoreg", "m_scrollx", "m_scrolly",
   "m_beast_p0", "m_beast_p1", "m_beast_p2", "m_beast_p3"]

/-- `decobsmt_device::device_start` (decobsmt.cpp lines 83-85) has an
empty body: it registers no save items. -/
def decobsmt_save_items : List String :=
  []

/-- A concrete driver state used to instantiate universally quantified
theorems on explicit inputs. -/
def djboy_state0 : DjboyState :=
  ⟨0, 0, 0, 0, 0, 0, MemoryBank.empty, MemoryBank.empty, MemoryBank.empty,
    MemoryBank.empty, ⟨0, false, false⟩, ⟨0, false, true⟩, ⟨0, false, false⟩,
    LineState.clearLine⟩

theorem and_two_pow_eq_zero (n i : Nat) :
    (n &&& 2 ^ i = 0) ↔ n.testBit i = false := by
  rw [Nat.and_two_pow]
  cases h : n.testBit i
  · simp
  · simp only [Bool.toNat_true, one_mul]
    simp [(Nat.two_pow_pos i).ne']

theorem and_two_pow_ne_zero (n i : Nat) :
    (n &&& 2 ^ i ≠ 0) ↔ n.testBit i = true := by
  rw [Ne, and_two_pow_eq_zero]
  cases h : n.testBit i <;> simp

theorem bsmt_reset_cond (old data : Nat) :
    (((data ^^^ old) &&& 0x80 ≠ 0) ∧ data &&& 0x80 = 0) ↔
      (old.testBit 7 = true ∧ data.testBit 7 = false) := by
  have h : (0x80 : Nat) = 2 ^ 7 := by norm_num
  rw [h, and_two_pow_ne_zero, and_two_pow_eq_zero, Nat.testBit_xor]
  cases hd : data.testBit 7 <;> cases ho : old.testBit 7 <;> simp

/-- C1: `bsmt_reset_w data` calls the attached BSMT's `reset()` exactly
once when bit 7 of the stored previous value is 1 and bit 7 of `data` is
0, and zero times otherwise; the stored previous value equals `data`
afterwards; and from the reset state, writing 0x80 then 0x00 produces
exactly one reset call in total. -/
theorem C1_bsmt_reset_falling_edge (s : DecobsmtState) (data : Nat) :
    ((bsmt_reset_w s data).2 =
      if s.bsmt_reset.testBit 7 = true ∧ data.testBit 7 = false then 1 else 0)
    ∧ (bsmt_reset_w s data).1.bsmt_reset = data
    ∧ (bsmt_reset_w s.device_reset 0x80).2 +
        (bsmt_reset_w (bsmt_reset_w s.device_reset 0x80).1 0x00).2 = 1 := by
  refine ⟨?_, rfl, ?_⟩
  · simp only [bsmt_reset_w]
    rw [if_congr (bsmt_reset_cond s.bsmt_reset data) rfl rfl]
  · simp [bsmt_reset_w, DecobsmtState.device_reset]

theorem master_entryBase (s : DjboyState) (i : Nat) (hi : i < 32) :
    (machine_start s).masterbank.entryBase i = some (i * 0x2000) := by
  simp [machine_start, MemoryBank.configure_entries, MemoryBank.empty, hi]

/-- C2: on the started machine, selecting master bank entry `i < 32`
succeeds, and a read through the bank window at offset `off < 0x2000`
(equivalently, a master CPU read at address `0xc000 + off` through the
`0xc000-0xdfff` bank mapping) returns `MASTER[i * 0x2000 + off]`. -/
theorem C2_master_bank_select_read (s : DjboyState) (MASTER : Nat → Nat)
    (i off : Nat) (hi : i < 32) (hoff : off < 0x2000) :
    ∃ mb2 : MemoryBank,
      (machine_start s).masterbank.set_entry i = some mb2
      ∧ mb2.readWindow MASTER off = some (MASTER (i * 0x2000 + off))
      ∧ mastercpu_read_banked { machine_start s with masterbank := mb2 }
          MASTER (0xc000 + off) = some (MASTER (i * 0x2000 + off)) := by
  refine ⟨{ (machine_start s).masterbank with current := i }, ?_, ?_, ?_⟩
  · unfold MemoryBank.set_entry
    rw [master_entryBase s i hi]
  · unfold MemoryBank.readWindow
    rw [master_entryBase s i hi]
    rfl
  · unfold mastercpu_read_banked
    rw [if_pos (by omega)]
    show MemoryBank.readWindow _ MASTER (0xc000 + off - 0xc000) = _
    rw [Nat.add_sub_cancel_left]
    unfold MemoryBank.readWindow
    rw [master_entryBase s i hi]
    rfl

/-- Witness for C2 at the instance named by the claim: bank entry 5,
window offset 0x10, with the identity backing function, so the read
returns `MASTER (5 * 0x2000 + 0x10)`. -/
theorem C2_master_bank_select_read_witness :
    (5 : Nat) < 32 ∧ (0x10 : Nat) < 0x2000 ∧
    ∃ mb2 : MemoryBank,
      (machine_start djboy_state0).masterbank.set_entry 5 = some mb2
      ∧ mb2.readWindow (fun n => n) 0x10 = some (5 * 0x2000 + 0x10)
      ∧ mastercpu_read_banked { machine_start djboy_state0 with masterbank := mb2 }
          (fun n => n) (0xc000 + 0x10) = some (5 * 0x2000 + 0x10) :=
  ⟨by decide, by decide,
    C2_master_bank_select_read djboy_state0 (fun n => n) 5 0x10
      (by decide) (by decide)⟩

/-- C3: the beast latch is wired with separate acknowledge; for any
state whose beast latch has that configuration, writing `v` (slave CPU
port 4) sets pending and stores `v`; when bit 0 of the retained port-0
value is 0, `beast_p1_r` returns `v` and leaves pending set; a
`beast_p0_w` whose data has bit 0 clear acknowledges and clears
pending, while one with bit 0 set leaves pending set. -/
theorem C3_beastlatch_separate_acknowledge (s : DjboyState)
    (v d0 d1 : Nat) (hs : s.beastlatch.separateAck = true)
    (hp0 : s.beast_p0.testBit 0 = false)
    (h0 : d0.testBit 0 = false) (h1 : d1.testBit 0 = true) :
    (machine_config s).beastlatch.separateAck = true
    ∧ (slave_port4_w s v).beastlatch.pending_r = true
    ∧ (slave_port4_w s v).beastlatch.value = v
    ∧ (beast_p1_r (slave_port4_w s v)).1 = v
    ∧ (beast_p1_r (slave_port4_w s v)).2.beastlatch.pending_r = true
    ∧ (beast_p0_w (slave_port4_w s v) d0).1.beastlatch.pending_r = false
    ∧ (beast_p0_w (slave_port4_w s v) d1).1.beastlatch.pending_r = true := by
  refine ⟨rfl, rfl, rfl, ?_, ?_, ?_, ?_⟩
  · simp [beast_p1_r, slave_port4_w, Latch.read, Latch.write, hp0, hs]
  · simp [beast_p1_r, slave_port4_w, Latch.read, Latch.write, Latch.pending_r,
      hp0, hs]
  · simp only [beast_p0_w, h0]
    split <;> simp_all [Latch.acknowledge, Latch.pending_r]
  · simp only [beast_p0_w, h1]
    split <;> split <;>
      simp_all [slave_port4_w, Latch.write, Latch.pending_r, Latch.acknowledge]

/-- Witness for C3: the concrete state (beast latch configured with
separate acknowledge, port-0 value 0), value 0x42, acknowledging write
0x00 and non-acknowledging write 0x01. -/
theorem C3_beastlatch_separate_acknowledge_witness :
    djboy_state0.beastlatch.separateAck = true
    ∧ djboy_state0.beast_p0.testBit 0 = false
    ∧ (0 : Nat).testBit 0 = false
    ∧ (1 : Nat).testBit 0 = true
    ∧ ((machine_config djboy_state0).beastlatch.separateAck = true
      ∧ (slave_port4_w djboy_state0 0x42).beastlatch.pending_r = true
      ∧ (slave_port4_w djboy_state0 0x42).beastlatch.value = 0x42
      ∧ (beast_p1_r (slave_port4_w djboy_state0 0x42)).1 = 0x42
      ∧ (beast_p1_r (slave_port4_w djboy_state0 0x42)).2.beastlatch.pending_r = true
      ∧ (beast_p0_w (slave_port4_w djboy_state0 0x42) 0).1.beastlatch.pending_r = false
      ∧ (beast_p0_w (slave_port4_w djboy_state0 0x42) 1).1.beastlatch.pending_r = true) :=
  ⟨rfl, by decide, by decide, by decide,
    C3_beastlatch_separate_acknowledge djboy_state0 0x42 0 1 rfl (by decide)
      (by decide) (by decide)⟩

/-- Counterexample to C4 as stated: on the started machine the sound
CPU bank-select handler passes the written byte 8 to the bank unit
unmasked; entry 8 is not among the configured entries 0-7, so the
selection is rejected rather than masked or ignored. -/
theorem C4_counterexample_sound_bank_8 :
    soundcpu_bankswitch_w (machine_start djboy_state0) 8 = none := by
  simp [soundcpu_bankswitch_w, machine_start, MemoryBank.set_entry,
    MemoryBank.configure_entries, MemoryBank.empty]

theorem set_entry_isSome_of (b : MemoryBank) (i : Nat)
    (h : (b.entryBase i).isSome = true) :
    ∃ b2 : MemoryBank, b.set_entry i = some b2 := by
  unfold MemoryBank.set_entry
  cases hb : b.entryBase i
  · rw [hb] at h
    simp at h
  · exact ⟨_, rfl⟩

theorem slavebank_entry_isSome (s : DjboyState) (d : Nat) (hd : d < 16)
    (hne : d &&& 0xc ≠ 4) :
    ((machine_start s).slavebank.entryBase d).isSome = true := by
  have key : ∀ e : Nat, e < 16 → e &&& 0xc ≠ 4 →
      ((machine_start djboy_state0).slavebank.entryBase e).isSome = true := by
    decide
  have heq : (machine_start s).slavebank.entryBase =
      (machine_start djboy_state0).slavebank.entryBase := rfl
  rw [heq]
  exact key d hd hne

/-- C4 amended: `slavecpu_bankswitch_w` masks the index to `data & 0xf`
and skips values with `(data & 0xc) == 4`, so for every written byte it
either no-ops or selects one of the configured entries 0-3 and 8-15 and
never fails; `soundcpu_bankswitch_w` passes the raw byte unmasked, so
it selects a configured entry (0-7) exactly for bytes below 8, and a
byte of 8 or more is rejected by the bank unit. -/
theorem C4_bankswitch_range_policy (s : DjboyState) (data d7 d8 : Nat)
    (h : data < 256) (h7 : d7 < 8) (h8 : 8 ≤ d8) :
    (slavecpu_bankswitch_w (machine_start s) data).isSome = true
    ∧ (soundcpu_bankswitch_w (machine_start s) d7).isSome = true
    ∧ soundcpu_bankswitch_w (machine_start s) d8 = none := by
  refine ⟨?_, ?_, ?_⟩
  · unfold slavecpu_bankswitch_w
    by_cases hc : data &&& 0xc = 4
    · simp [hc]
    · have hd : data &&& 0xf < 16 := by
        have := Nat.and_le_right (n := data) (m := 0xf)
        omega
      have hca : data &&& 0xf &&& 0xc = data &&& 0xc := by
        have e : (0xf &&& 0xc : Nat) = 0xc := by decide
        rw [Nat.and_assoc, e]
      have hs := slavebank_entry_isSome s (data &&& 0xf) hd (by rw [hca]; exact hc)
      obtain ⟨sb, hsb⟩ := set_entry_isSome_of _ _ hs
      simp only [hc, ne_eq, not_false_eq_true, if_true]
      simp [hsb]
  · unfold soundcpu_bankswitch_w
    have hb : ((machine_start s).soundbank.entryBase d7).isSome = true := by
      simp [machine_start, MemoryBank.configure_entries, MemoryBank.empty, h7]
    obtain ⟨sb, hsb⟩ := set_entry_isSome_of _ _ hb
    simp [hsb]
  · unfold soundcpu_bankswitch_w
    have hb : (machine_start s).soundbank.entryBase d8 = none := by
      simp [machine_start, MemoryBank.configure_entries, MemoryBank.empty]
      omega
    simp [MemoryBank.set_entry, hb]

/-- Witness for C4 amended: slave write 0xff (masked to entry 15),
sound writes 7 and 8. -/
theorem C4_bankswitch_range_policy_witness :
    (0xff : Nat) < 256 ∧ (7 : Nat) < 8 ∧ (8 : Nat) ≤ 8 ∧
    ((slavecpu_bankswitch_w (machine_start djboy_state0) 0xff).isSome = true
      ∧ (soundcpu_bankswitch_w (machine_start djboy_state0) 7).isSome = true
      ∧ soundcpu_bankswitch_w (machine_start djboy_state0) 8 = none) :=
  ⟨by decide, by decide, by decide,
    C4_bankswitch_range_policy djboy_state0 0xff 7 8 (by decide) (by decide)
      (by decide)⟩

theorem machine_start_bankxor (s : DjboyState) :
    (machine_start s).bankxor = s.bankxor := rfl

theorem masterbank_l_entryBase (s : DjboyState) :
    (machine_start s).masterbank_l.entryBase 0 = some 0x8000 := by
  simp [machine_start, MemoryBank.configure_entries, MemoryBank.empty]

/-- C5: on the started machine, writing `data` to the master bank-select
port selects master bank entry `data XOR m_bankxor` (and entry 0 of the
low bank), and the driver inits set `m_bankxor` to 0x00 for the
djboy/djboya sets and 0x1f for the djboyj set. -/
theorem C5_master_bankswitch_xor (s : DjboyState) (data : Nat)
    (h : data ^^^ s.bankxor < 32) :
    (∃ s2 : DjboyState,
      mastercpu_bankswitch_w (machine_start s) data = some s2
      ∧ s2.masterbank.current = data ^^^ s.bankxor
      ∧ s2.masterbank_l.current = 0)
    ∧ (init_djboy s).bankxor = 0x00
    ∧ (init_djboyj s).bankxor = 0x1f := by
  refine ⟨?_, rfl, rfl⟩
  have hm : (machine_start s).masterbank.set_entry (data ^^^ s.bankxor) =
      some { (machine_start s).masterbank with current := data ^^^ s.bankxor } := by
    unfold MemoryBank.set_entry
    rw [master_entryBase s (data ^^^ s.bankxor) h]
  have hl : (machine_start s).masterbank_l.set_entry 0 =
      some { (machine_start s).masterbank_l with current := 0 } := by
    unfold MemoryBank.set_entry
    rw [masterbank_l_entryBase s]
  refine ⟨{ machine_start s with masterbank := { (machine_start s).masterbank with current := data ^^^ s.bankxor }, masterbank_l := { (machine_start s).masterbank_l with current := 0 } }, ?_, rfl, rfl⟩
  unfold mastercpu_bankswitch_w
  simp only [machine_start_bankxor]
  rw [hm, hl]

/-- Witness for C5: the djboyj init (`m_bankxor = 0x1f`) and written
byte 5, selecting entry `5 XOR 0x1f = 26`. -/
theorem C5_master_bankswitch_xor_witness :
    (5 ^^^ (init_djboyj djboy_state0).bankxor) < 32
    ∧ ((∃ s2 : DjboyState,
        mastercpu_bankswitch_w (machine_start (init_djboyj djboy_state0)) 5 = some s2
        ∧ s2.masterbank.current = 5 ^^^ (init_djboyj djboy_state0).bankxor
        ∧ s2.masterbank_l.current = 0)
      ∧ (init_djboy (init_djboyj djboy_state0)).bankxor = 0x00
      ∧ (init_djboyj (init_djboyj djboy_state0)).bankxor = 0x1f) :=
  ⟨by decide, C5_master_bankswitch_xor (init_djboyj djboy_state0) 5 (by decide)⟩

theorem and_2_testBit (n : Nat) : (n &&& 2 ≠ 0) ↔ n.testBit 1 = true := by
  have e : (2 : Nat) = 2 ^ 1 := by norm_num
  rw [e, and_two_pow_ne_zero]

/-- C6: for every value written via `beast_p3_w`, the slave CPU reset
line is asserted when bit 1 of the value is 0 and cleared when bit 1 is
1 (and the value is stored in `m_beast_p3`); `bsmt_reset_line` sets the
sound CPU reset line to exactly the passed line state. -/
theorem C6_reset_control_lines (s : DjboyState) (data : Nat)
    (m : DecobsmtMachine) (st : LineState) :
    ((beast_p3_w s data).slavecpu_reset =
      if data.testBit 1 = true then LineState.clearLine
      else LineState.assertLine)
    ∧ (beast_p3_w s data).beast_p3 = data
    ∧ (bsmt_reset_line m st).soundcpu_reset = st := by
  refine ⟨?_, rfl, rfl⟩
  show (if data &&& 2 ≠ 0 then LineState.clearLine else LineState.assertLine) =
    if data.testBit 1 = true then LineState.clearLine else LineState.assertLine
  rw [if_congr (and_2_testBit data) rfl rfl]

/-- C7: `beast_p0_r` always returns 0; `beast_p1_r` returns 0 when bit
0 of the retained port-0 value is 1; `beast_p2_r` returns IN1, IN2, IN0
for selector values 0, 1, 2 of bits 2-3 of the retained port-0 value,
and the fixed default 0xff for selector 3. -/
theorem C7_default_port_reads (s s0 s1 s2 s3 : DjboyState)
    (in0 in1 in2 : Nat)
    (hp : s.beast_p0.testBit 0 = true)
    (h0 : (s0.beast_p0 >>> 2) &&& 3 = 0)
    (h1 : (s1.beast_p0 >>> 2) &&& 3 = 1)
    (h2 : (s2.beast_p0 >>> 2) &&& 3 = 2)
    (h3 : (s3.beast_p0 >>> 2) &&& 3 = 3) :
    (beast_p0_r s).1 = 0
    ∧ (beast_p1_r s).1 = 0
    ∧ (beast_p2_r s0 in0 in1 in2).1 = in1
    ∧ (beast_p2_r s1 in0 in1 in2).1 = in2
    ∧ (beast_p2_r s2 in0 in1 in2).1 = in0
    ∧ (beast_p2_r s3 in0 in1 in2).1 = 0xff := by
  refine ⟨rfl, ?_, ?_, ?_, ?_, ?_⟩
  · simp [beast_p1_r, hp]
  · unfold beast_p2_r
    rw [h0]
  · unfold beast_p2_r
    rw [h1]
  · unfold beast_p2_r
    rw [h2]
  · unfold beast_p2_r
    rw [h3]

/-- Witness for C7: port-0 values 1 (bit 0 set), 0, 4, 8, 12 (selectors
0, 1, 2, 3), with distinct input port values 0x11, 0x22, 0x33. -/
theorem C7_default_port_reads_witness :
    ({ djboy_state0 with beast_p0 := 1 } : DjboyState).beast_p0.testBit 0 = true
    ∧ ((djboy_state0.beast_p0 >>> 2) &&& 3 = 0)
    ∧ ((({ djboy_state0 with beast_p0 := 4 } : DjboyState).beast_p0 >>> 2) &&& 3 = 1)
    ∧ ((({ djboy_state0 with beast_p0 := 8 } : DjboyState).beast_p0 >>> 2) &&& 3 = 2)
    ∧ ((({ djboy_state0 with beast_p0 := 12 } : DjboyState).beast_p0 >>> 2) &&& 3 = 3)
    ∧ ((beast_p0_r { djboy_state0 with beast_p0 := 1 }).1 = 0
      ∧ (beast_p1_r { djboy_state0 with beast_p0 := 1 }).1 = 0
      ∧ (beast_p2_r djboy_state0 0x11 0x22 0x33).1 = 0x22
      ∧ (beast_p2_r { djboy_state0 with beast_p0 := 4 } 0x11 0x22 0x33).1 = 0x33
      ∧ (beast_p2_r { djboy_state0 with beast_p0 := 8 } 0x11 0x22 0x33).1 = 0x11
      ∧ (beast_p2_r { djboy_state0 with beast_p0 := 12 } 0x11 0x22 0x33).1 = 0xff) :=
  ⟨by decide, by decide, by decide, by decide, by decide,
    C7_default_port_reads { djboy_state0 with beast_p0 := 1 } djboy_state0
      { djboy_state0 with beast_p0 := 4 } { djboy_state0 with beast_p0 := 8 }
      { djboy_state0 with beast_p0 := 12 } 0x11 0x22 0x33
      (by decide) (by decide) (by decide) (by decide) (by decide)⟩

/-- C9: `beast_status_r` and `beast_p3_r` return the state unchanged
(no side effects); the status value reports bit 2 as 0 exactly when the
slave latch is pending and bit 3 as 1 exactly when the beast latch is
pending; two consecutive reads with no intervening write return the
same value. -/
theorem C9_status_reads_no_side_effects (s : DjboyState) (d1 d2 : Nat) :
    (beast_status_r s).2 = s
    ∧ ((beast_status_r s).1.testBit 2 = !s.slavelatch.pending_r)
    ∧ ((beast_status_r s).1.testBit 3 = s.beastlatch.pending_r)
    ∧ (beast_p3_r s d1 d2).2 = s
    ∧ (beast_status_r (beast_status_r s).2).1 = (beast_status_r s).1
    ∧ (beast_p3_r (beast_p3_r s d1 d2).2 d1 d2).1 = (beast_p3_r s d1 d2).1 := by
  refine ⟨rfl, ?_, ?_, rfl, rfl, rfl⟩ <;>
    cases hsl : s.slavelatch.pending <;> cases hbl : s.beastlatch.pending <;>
      simp [beast_status_r, Latch.pending_r, hsl, hbl] <;> decide

/-- C10: `beast_p0_w data` writes the retained port-1 value to the
slave latch exactly once on a rising edge of bit 1 (previous port-0
bit 1 clear, `data` bit 1 set) and zero times otherwise; the beast
latch is acknowledged exactly when bit 0 of `data` is 0; and the
retained port-0 value equals `data` afterwards. -/
theorem C10_beast_p0_write_edge (s : DjboyState) (data : Nat) :
    ((beast_p0_w s data).2 =
      if s.beast_p0.testBit 1 = false ∧ data.testBit 1 = true then 1 else 0)
    ∧ ((beast_p0_w s data).1.slavelatch =
      if s.beast_p0.testBit 1 = false ∧ data.testBit 1 = true
      then s.slavelatch.write s.beast_p1 else s.slavelatch)
    ∧ ((beast_p0_w s data).1.beastlatch =
      if data.testBit 0 = false then s.beastlatch.acknowledge
      else s.beastlatch)
    ∧ (beast_p0_w s data).1.beast_p0 = data := by
  unfold beast_p0_w
  by_cases he : s.beast_p0.testBit 1 = false ∧ data.testBit 1 = true <;>
    by_cases ha : data.testBit 0 = false <;>
      simp [he, ha]

/-- C8: `decobsmt_device::device_start` registers no save items at all,
so none of `m_bsmt_latch`, `m_bsmt_reset`, `m_bsmt_comms` is in the
save/restore set (while the Beast port values are registered by the
djboy driver); consequently restoring a saved state loses
`m_bsmt_reset`: after a live write of 0x80, writing 0x00 resets the
BSMT exactly once, while the same write on a state rebuilt from the
(empty) registered set produces no reset call. -/
theorem C8_decobsmt_save_items_missing :
    decobsmt_save_items = []
    ∧ "m_bsmt_latch" ∉ decobsmt_save_items
    ∧ "m_bsmt_reset" ∉ decobsmt_save_items
    ∧ "m_bsmt_comms" ∉ decobsmt_save_items
    ∧ "m_beast_p0" ∈ djboy_save_items
    ∧ "m_beast_p1" ∈ djboy_save_items
    ∧ "m_beast_p2" ∈ djboy_save_items
    ∧ "m_beast_p3" ∈ djboy_save_items
    ∧ (bsmt_reset_w (bsmt_reset_w ⟨0, 0, 0⟩ 0x80).1 0x00).2 = 1
    ∧ (bsmt_reset_w (DecobsmtState.device_reset
        (bsmt_reset_w ⟨0, 0, 0⟩ 0x80).1) 0x00).2 = 0 := by
  refine ⟨rfl, ?_, ?_, ?_, ?_, ?_, ?_, ?_, by decide, by decide⟩ <;> decide
